import Mathlib

/-!
Shallow embedding of `protocol/utility_contracts/contract_deployer.py`
(class `ContractDeployer`) of the zksync2-python repository.

Byte strings are `List Nat` (each entry a byte value).  The external
collaborators — keccak256, SHA-256, the checksum-case address formatter and
the generic ABI encoder — are parameters of the embedded operations: the
repository treats them as trusted external libraries, and every theorem
below quantifies over them (adding the hypotheses the collaborators are
documented to satisfy, such as producing 32-byte digests).

Python exceptions are modelled by `Except PyError`; the source raises
`OverflowError` explicitly for the bytecode-size and salt-length checks,
`int.to_bytes` raises `OverflowError` when the value does not fit,
indexing raises `IndexError` and a missing dict key raises `KeyError`.
-/

deriving instance DecidableEq for Except

namespace ContractDeployer

abbrev Bytes := List Nat

/-- The Python exceptions the embedded operations can raise. -/
inductive PyError where
  | overflowError (msg : String)
  | indexError
  | keyError
  deriving DecidableEq, Repr

/-- `MAX_BYTE_CODE_LENGTH = 2 ** 16` (source line 31). -/
def MAX_BYTE_CODE_LENGTH : Nat := 2 ^ 16

/-- `DEFAULT_SALT = b'\0' * 32` (source line 28). -/
def DEFAULT_SALT : Bytes := List.replicate 32 0

/-- `EMPTY_BYTES = b''` (source line 33). -/
def EMPTY_BYTES : Bytes := []

/-- `CREATE_FUNC = "create"` (source line 29). -/
def CREATE_FUNC : String := "create"

/-- `CREATE2_FUNC = "create2"` (source line 30). -/
def CREATE2_FUNC : String := "create2"

/-- UTF-8 bytes of a string, as `keccak(text=...)` hashes them; the strings
hashed here ("zksyncCreate", "zksyncCreate2") are ASCII, where the UTF-8
bytes are the character codes. -/
def utf8Bytes (s : String) : Bytes := s.data.map Char.toNat

/-- `CREATE_PREFIX = keccak(text="zksyncCreate")` (source line 35); the keccak
collaborator is a parameter. -/
def CREATE_PREFIX (keccak : Bytes → Bytes) : Bytes := keccak (utf8Bytes "zksyncCreate")

/-- `CREATE2_PREFIX = keccak(text="zksyncCreate2")` (source line 36). -/
def CREATE2_PREFIX (keccak : Bytes → Bytes) : Bytes := keccak (utf8Bytes "zksyncCreate2")

/-- Python `n.to_bytes(2, byteorder='big')`: the two-byte big-endian encoding,
raising `OverflowError` when `n` does not fit in two bytes. -/
def toBytes2BE (n : Nat) : Except PyError Bytes :=
  if n < 2 ^ 16 then Except.ok [n / 256, n % 256]
  else Except.error (PyError.overflowError "int too big to convert")

/-- `ContractDeployer._hash_byte_code` (source lines 45–51):
`bytecode_len = int(len(bytecode) / 32)` (floor division in the relevant
range), explicit `OverflowError` when `bytecode_len > MAX_BYTE_CODE_LENGTH`,
then `bytecode_len.to_bytes(2, 'big') + sha256(bytecode)[2:]`. -/
def hash_byte_code (sha256 : Bytes → Bytes) (bytecode : Bytes) : Except PyError Bytes :=
  let bytecode_len := bytecode.length / 32
  if bytecode_len > MAX_BYTE_CODE_LENGTH then
    Except.error (PyError.overflowError
      "ContractDeployer._hash_byte_code, bytecode length must be less than 2^16")
  else
    match toBytes2BE bytecode_len with
    | Except.error e => Except.error e
    | Except.ok pre => Except.ok (pre ++ (sha256 bytecode).drop 2)

/-- Modelled from the spec: `pad_front_bytes` of `core/utils` (not under the
provided sources) left-zero-pads a byte string to the needed length
(spec §4.2: "Pad `sender` to 32 bytes by left-zero-padding"). -/
def pad_front_bytes (bs : Bytes) (needed_length : Nat) : Bytes :=
  List.replicate (needed_length - bs.length) 0 ++ bs

/-- Modelled from the spec: `get_data` of `core/utils` (not under the provided
sources) turns the caller-supplied hex address into its raw bytes; addresses
are taken here directly as raw byte lists, so it is the identity. -/
def get_data (sender : Bytes) : Bytes := sender

/-- Fuel-based helper for `int_to_bytes`: big-endian base-256 digits of the
second argument; the fuel (first argument) bounds the recursion depth and is
sufficient whenever it is at least the value being serialized. -/
def natToBEAux : Nat → Nat → Bytes
  | 0, _ => []
  | _ + 1, 0 => []
  | fuel + 1, n + 1 => natToBEAux fuel ((n + 1) / 256) ++ [(n + 1) % 256]

/-- Modelled from the spec: `int_to_bytes` of `core/utils` (not under the
provided sources) serializes a non-negative integer big-endian with no
leading zero bytes (spec §3: "Nonce — unsigned integer, serialized
big-endian, left-padded to 32 bytes"; the padding is applied by the caller). -/
def int_to_bytes (n : Nat) : Bytes := natToBEAux n n

/-- Lower-case hex digit of a value below 16, as Python `bytes.hex` writes it. -/
def hexDigit (n : Nat) : Char :=
  if n < 10 then Char.ofNat (48 + n) else Char.ofNat (87 + n)

/-- Two lower-case hex digits of one byte. -/
def byteToHex (b : Nat) : String := String.mk [hexDigit (b / 16), hexDigit (b % 16)]

/-- Python `bytes.hex()`: lower-case hex of a byte string. -/
def bytesToHex (bs : Bytes) : String := String.join (bs.map byteToHex)

/-- `ContractDeployer.compute_l2_create_address` (source lines 100–109).
`keccak` and the external checksum formatter `toChecksumAddress` are
parameters. -/
def compute_l2_create_address (keccak : Bytes → Bytes) (toChecksumAddress : String → String)
    (sender : Bytes) (nonce : Nat) : String :=
  let sender_bytes := pad_front_bytes (get_data sender) 32
  let nonce_bytes := pad_front_bytes (int_to_bytes nonce) 32
  let result := CREATE_PREFIX keccak ++ sender_bytes ++ nonce_bytes
  let sha_result := keccak result
  let address := "0x" ++ bytesToHex (sha_result.drop 12)
  toChecksumAddress address

/-- `ContractDeployer.compute_l2_create2_address` (source lines 111–128):
salt-length check, front-padded sender, `_hash_byte_code`, keccak of the raw
constructor bytes, concatenation, keccak, low bytes from offset 12,
checksum formatting. -/
def compute_l2_create2_address (keccak : Bytes → Bytes) (toChecksumAddress : String → String)
    (sha256 : Bytes → Bytes) (sender : Bytes) (bytecode : Bytes) (constructor : Bytes)
    (salt : Bytes) : Except PyError String :=
  if salt.length ≠ 32 then Except.error (PyError.overflowError "Salt data must be 32 length")
  else
    let sender_bytes := pad_front_bytes (get_data sender) 32
    match hash_byte_code sha256 bytecode with
    | Except.error e => Except.error e
    | Except.ok bytecode_hash =>
      let ctor_hash := keccak constructor
      let result := CREATE2_PREFIX keccak ++ sender_bytes ++ salt ++ bytecode_hash ++ ctor_hash
      let sha_result := keccak result
      let address := "0x" ++ bytesToHex (sha_result.drop 12)
      Except.ok (toChecksumAddress address)

/-- `ContractDeployer.encode_create2` (source lines 53–79): default the salt
and call data, check the salt length, hash the bytecode, and hand the ordered
argument tuple `(salt, bytecode_hash, 0, call_data)` under the function name
`CREATE2_FUNC` to the external ABI encoder `encodeABI` (a parameter with an
abstract result type, as the source treats `web3`'s encoder). -/
def encode_create2 {α : Type} (sha256 : Bytes → Bytes)
    (encodeABI : String → Bytes × Bytes × Nat × Bytes → α)
    (bytecode : Bytes) (call_data : Option Bytes) (salt : Option Bytes) :
    Except PyError α :=
  let salt := salt.getD DEFAULT_SALT
  let call_data := call_data.getD EMPTY_BYTES
  if salt.length ≠ 32 then Except.error (PyError.overflowError "Salt data must be 32 length")
  else
    match hash_byte_code sha256 bytecode with
    | Except.error e => Except.error e
    | Except.ok bytecode_hash =>
      Except.ok (encodeABI CREATE2_FUNC (salt, bytecode_hash, 0, call_data))

/-- `ContractDeployer.encode_create` (source lines 81–98): identical to
`encode_create2` except for the function name; the source builds the argument
list `[salt_data, bytecode_hash, 0, call_data]` in the same order. -/
def encode_create {α : Type} (sha256 : Bytes → Bytes)
    (encodeABI : String → Bytes × Bytes × Nat × Bytes → α)
    (bytecode : Bytes) (call_data : Option Bytes) (salt_data : Option Bytes) :
    Except PyError α :=
  let salt_data := salt_data.getD DEFAULT_SALT
  let call_data := call_data.getD EMPTY_BYTES
  if salt_data.length ≠ 32 then Except.error (PyError.overflowError "Salt data must be 32 length")
  else
    match hash_byte_code sha256 bytecode with
    | Except.error e => Except.error e
    | Except.ok bytecode_hash =>
      Except.ok (encodeABI CREATE_FUNC (salt_data, bytecode_hash, 0, call_data))

/-- `ContractDeployer.extract_contract_address` (source lines 130–134): the
external event decoder (`processReceipt`) has already produced the list of
decoded "ContractDeployed" entries, each given by its `args` map; the source
evaluates `result[1]["args"]["contractAddress"]`, so indexing raises
`IndexError` (the spec's `EventNotFound`) when fewer than two entries exist
and a missing key raises `KeyError` (the spec's `MissingField`). -/
def extract_contract_address (decoded : List (List (String × String))) :
    Except PyError String :=
  match decoded.get? 1 with
  | none => Except.error PyError.indexError
  | some args =>
    match args.lookup "contractAddress" with
    | none => Except.error PyError.keyError
    | some addr => Except.ok addr

/-- 32-byte big-endian word of an unsigned integer, as ABI encoding uses it. -/
def u256be (n : Nat) : Bytes := (List.range 32).map (fun i => n / 256 ^ (31 - i) % 256)

/-- Right-zero-pad a byte string to a multiple of 32 bytes. -/
def padRight32 (bs : Bytes) : Bytes := bs ++ List.replicate ((32 - bs.length % 32) % 32) 0

/-- Modelled from the spec: the tail segment the external generic ABI encoder
produces for a dynamic `bytes` argument (spec §4.3): a 32-byte big-endian
length word followed by the right-zero-padded data, so that for empty call
data the whole segment is the 32-byte all-zero dynamic-length placeholder. -/
def abiDynamicBytesSegment (bs : Bytes) : Bytes := u256be bs.length ++ padRight32 bs

/-- Modelled from the spec: the external generic ABI encoder (`encodeABI` of
`web3`, not under the provided sources) for the deployer's
`(bytes32, bytes32, uint256, bytes)` calls (spec §4.3, §6): the 4-byte
function selector (abstract, a parameter), the two static 32-byte arguments,
the `uint256` value word, the offset word of the dynamic argument (4 head
words × 32 = 128), then the dynamic `bytes` segment. -/
def abiEncodeDeployCall (selector : String → Bytes) (fn : String)
    (args : Bytes × Bytes × Nat × Bytes) : Bytes :=
  selector fn ++ args.1 ++ args.2.1 ++ u256be args.2.2.1 ++ u256be 128 ++
    abiDynamicBytesSegment args.2.2.2

/-! ### Helper lemmas -/

lemma hash_byte_code_of_le (sha : Bytes → Bytes) (b : Bytes) (h : b.length / 32 ≤ 65535) :
    hash_byte_code sha b =
      Except.ok ([b.length / 32 / 256, b.length / 32 % 256] ++ (sha b).drop 2) := by
  have hpow : (2 : ℕ) ^ 16 = 65536 := by norm_num
  simp only [hash_byte_code, toBytes2BE, MAX_BYTE_CODE_LENGTH, hpow]
  rw [if_neg (by omega), if_pos (by omega)]

lemma hash_byte_code_of_eq (sha : Bytes → Bytes) (b : Bytes) (h : b.length / 32 = 65536) :
    hash_byte_code sha b =
      Except.error (PyError.overflowError "int too big to convert") := by
  have hpow : (2 : ℕ) ^ 16 = 65536 := by norm_num
  simp only [hash_byte_code, toBytes2BE, MAX_BYTE_CODE_LENGTH, hpow, h]
  rw [if_neg (by omega), if_neg (by omega)]

lemma hash_byte_code_of_gt (sha : Bytes → Bytes) (b : Bytes) (h : 65536 < b.length / 32) :
    hash_byte_code sha b =
      Except.error (PyError.overflowError
        "ContractDeployer._hash_byte_code, bytecode length must be less than 2^16") := by
  have hpow : (2 : ℕ) ^ 16 = 65536 := by norm_num
  simp only [hash_byte_code, toBytes2BE, MAX_BYTE_CODE_LENGTH, hpow]
  rw [if_pos (by omega)]

/-! ### Claim theorems -/

/-- C1: `_hash_byte_code` raises `OverflowError` (the spec's
`BytecodeTooLarge`) exactly when the 32-byte word count of the bytecode
exceeds 65535; in particular on a bytecode of word count exactly 65536 it
fails — through the two-byte big-endian encoding of the word count, whose
`OverflowError` the explicit `> 2 ** 16` guard does not pre-empt — rather
than returning a hash. -/
theorem hash_byte_code_fails_iff_word_count_exceeds (sha : Bytes → Bytes) (b : Bytes) :
    ((∃ msg, hash_byte_code sha b = Except.error (PyError.overflowError msg)) ↔
      65535 < b.length / 32) ∧
    (b.length / 32 = 65536 →
      hash_byte_code sha b = Except.error (PyError.overflowError "int too big to convert")) := by
  constructor
  · constructor
    · rintro ⟨msg, hmsg⟩
      by_contra hle
      rw [hash_byte_code_of_le sha b (by omega)] at hmsg
      exact Except.noConfusion hmsg
    · intro hgt
      rcases Nat.lt_or_ge 65536 (b.length / 32) with h | h
      · exact ⟨_, hash_byte_code_of_gt sha b h⟩
      · exact ⟨_, hash_byte_code_of_eq sha b (by omega)⟩
  · exact hash_byte_code_of_eq sha b

/-- C1 witness: a bytecode of 2097152 = 32 · 65536 bytes has word count
exactly 65536 and `_hash_byte_code` fails on it with an `OverflowError`. -/
theorem hash_byte_code_fails_iff_word_count_exceeds_witness :
    (∃ msg, hash_byte_code (fun _ => List.replicate 32 0) (List.replicate 2097152 1) =
      Except.error (PyError.overflowError msg)) ∧
    hash_byte_code (fun _ => List.replicate 32 0) (List.replicate 2097152 1) =
      Except.error (PyError.overflowError "int too big to convert") := by
  have h := hash_byte_code_fails_iff_word_count_exceeds
    (fun _ => List.replicate 32 0) (List.replicate 2097152 1)
  have hwc : (List.replicate 2097152 1).length / 32 = 65536 := by
    rw [List.length_replicate]
  exact ⟨h.1.mpr (by omega), h.2 hwc⟩

/-- C2: on every bytecode whose length is below 32 · 65536 (word count within
the 16-bit limit), `_hash_byte_code` returns the 32-byte value whose first
two bytes are the big-endian 16-bit encoding of `floor(len / 32)` and whose
remaining 30 bytes are bytes [2:32) of the SHA-256 digest of the bytecode. -/
theorem hash_byte_code_within_limit (sha : Bytes → Bytes) (b : Bytes)
    (hlen : b.length < 32 * 65536) (hsha : (sha b).length = 32) :
    hash_byte_code sha b =
      Except.ok ([b.length / 32 / 256, b.length / 32 % 256] ++ (sha b).drop 2) ∧
    ([b.length / 32 / 256, b.length / 32 % 256] ++ (sha b).drop 2).length = 32 ∧
    ((sha b).drop 2).length = 30 ∧
    b.length / 32 = 256 * (b.length / 32 / 256) + b.length / 32 % 256 ∧
    b.length / 32 / 256 < 256 := by
  have hwc : b.length / 32 < 65536 := Nat.div_lt_of_lt_mul (by omega)
  refine ⟨hash_byte_code_of_le sha b (by omega), ?_, ?_, ?_, ?_⟩
  · simp [List.length_drop, hsha]
  · simp [List.length_drop, hsha]
  · omega
  · omega

/-- C2 witness: the 33-byte all-7 bytecode, with a SHA-256 collaborator
returning a fixed 32-byte digest, hashes to the word-count prefix `[0, 1]`
followed by the last 30 digest bytes. -/
theorem hash_byte_code_within_limit_witness :
    hash_byte_code (fun _ => List.replicate 32 5) (List.replicate 33 7) =
      Except.ok ([0, 1] ++ List.replicate 30 5) ∧
    ([(0 : ℕ), 1] ++ List.replicate 30 5).length = 32 ∧
    (List.replicate (32 : ℕ) (5 : ℕ)).drop 2 = List.replicate 30 5 := by
  have h := hash_byte_code_within_limit (fun _ => List.replicate 32 5)
    (List.replicate 33 7) (by simp) (by simp)
  refine ⟨?_, by decide, by decide⟩
  have h1 := h.1
  simpa using h1

lemma compute_l2_create2_address_eq_ok (keccak : Bytes → Bytes) (chk : String → String)
    (sha : Bytes → Bytes) (sender b ctor salt bch : Bytes)
    (hs : salt.length = 32) (hb : hash_byte_code sha b = Except.ok bch) :
    compute_l2_create2_address keccak chk sha sender b ctor salt =
      Except.ok (chk ("0x" ++ bytesToHex ((keccak (keccak (utf8Bytes "zksyncCreate2") ++
        pad_front_bytes sender 32 ++ salt ++ bch ++ keccak ctor)).drop 12))) := by
  simp only [compute_l2_create2_address]
  rw [if_neg (by omega), hb]
  rfl

/-- C3: with a within-limit bytecode (one `_hash_byte_code` accepts) and a
32-byte salt, `compute_l2_create2_address` returns the checksum-formatted
hex form of the low 20 bytes (offset 12 onward of the 32-byte digest) of
`keccak256(keccak256("zksyncCreate2") ++ pad32(sender) ++ salt ++
hash_bytecode(bytecode) ++ keccak256(constructor_args))`. -/
theorem compute_l2_create2_address_spec (keccak : Bytes → Bytes) (chk : String → String)
    (sha : Bytes → Bytes) (sender b ctor salt bch : Bytes)
    (h32 : ∀ x, (keccak x).length = 32)
    (hs : salt.length = 32) (hb : hash_byte_code sha b = Except.ok bch) :
    compute_l2_create2_address keccak chk sha sender b ctor salt =
      Except.ok (chk ("0x" ++ bytesToHex ((keccak (keccak (utf8Bytes "zksyncCreate2") ++
        pad_front_bytes sender 32 ++ salt ++ bch ++ keccak ctor)).drop 12))) ∧
    ((keccak (keccak (utf8Bytes "zksyncCreate2") ++
      pad_front_bytes sender 32 ++ salt ++ bch ++ keccak ctor)).drop 12).length = 20 := by
  refine ⟨compute_l2_create2_address_eq_ok keccak chk sha sender b ctor salt bch hs hb, ?_⟩
  rw [List.length_drop, h32]

/-- C3 witness: all collaborators fixed to constant functions, the empty
bytecode, empty constructor args, a 20-byte sender and an all-5 salt. -/
theorem compute_l2_create2_address_spec_witness :
    compute_l2_create2_address (fun _ => List.replicate 32 2) (fun s => s)
      (fun _ => List.replicate 32 3) (List.replicate 20 4) [] [] (List.replicate 32 5) =
      Except.ok ("0x" ++ bytesToHex ((List.replicate 32 2).drop 12)) ∧
    ((List.replicate (32 : ℕ) (2 : ℕ)).drop 12).length = 20 := by
  exact compute_l2_create2_address_spec (fun _ => List.replicate 32 2) (fun s => s)
    (fun _ => List.replicate 32 3) (List.replicate 20 4) [] [] (List.replicate 32 5)
    ([0, 0] ++ List.replicate 30 3) (fun x => by simp) (by simp) (by decide)

set_option maxRecDepth 8192 in
/-- C4: the constructor-args hash used by `compute_l2_create2_address` is
keccak256 of the raw constructor bytes — the address depends on the
constructor args only through `keccak` of exactly the bytes passed — and an
empty byte sequence is hashed as literal empty input: with collaborators
that distinguish them, the address for empty constructor args differs from
the one a 32-byte zero-padded word would give. -/
theorem compute_l2_create2_address_ctor_hash_raw :
    (∀ (keccak : Bytes → Bytes) (chk : String → String) (sha : Bytes → Bytes)
       (sender b salt c1 c2 : Bytes), keccak c1 = keccak c2 →
       compute_l2_create2_address keccak chk sha sender b c1 salt =
         compute_l2_create2_address keccak chk sha sender b c2 salt) ∧
    compute_l2_create2_address (fun l => List.replicate 31 0 ++ [(l.sum + l.length) % 256])
        (fun s => s) (fun _ => List.replicate 32 0) [] [] [] (List.replicate 32 1) ≠
      compute_l2_create2_address (fun l => List.replicate 31 0 ++ [(l.sum + l.length) % 256])
        (fun s => s) (fun _ => List.replicate 32 0) [] [] (List.replicate 32 0)
        (List.replicate 32 1) := by
  constructor
  · intro keccak chk sha sender b salt c1 c2 hkc
    simp only [compute_l2_create2_address, hkc]
  · decide

/-- C4 witness: `[2]` and `[1, 0]` collide under the concrete keccak
collaborator, so the derived addresses coincide. -/
theorem compute_l2_create2_address_ctor_hash_raw_witness :
    compute_l2_create2_address (fun l => List.replicate 31 0 ++ [(l.sum + l.length) % 256])
        (fun s => s) (fun _ => List.replicate 32 0) [] [] [2] (List.replicate 32 1) =
      compute_l2_create2_address (fun l => List.replicate 31 0 ++ [(l.sum + l.length) % 256])
        (fun s => s) (fun _ => List.replicate 32 0) [] [] [1, 0] (List.replicate 32 1) := by
  exact compute_l2_create2_address_ctor_hash_raw.1
    (fun l => List.replicate 31 0 ++ [(l.sum + l.length) % 256])
    (fun s => s) (fun _ => List.replicate 32 0) [] [] (List.replicate 32 1) [2] [1, 0]
    (by decide)

/-- C5: `compute_l2_create_address` returns the checksum-formatted hex form
of the low 20 bytes (offset 12 onward of the 32-byte digest) of
`keccak256(keccak256(utf8("zksyncCreate")) ++ pad32(sender) ++
pad32(big_endian(nonce)))`; the domain prefix is keccak256 of the UTF-8
bytes of the string "zksyncCreate". -/
theorem compute_l2_create_address_spec (keccak : Bytes → Bytes) (chk : String → String)
    (sender : Bytes) (nonce : Nat) (h32 : ∀ x, (keccak x).length = 32) :
    compute_l2_create_address keccak chk sender nonce =
      chk ("0x" ++ bytesToHex ((keccak (keccak (utf8Bytes "zksyncCreate") ++
        pad_front_bytes sender 32 ++ pad_front_bytes (int_to_bytes nonce) 32)).drop 12)) ∧
    ((keccak (keccak (utf8Bytes "zksyncCreate") ++
      pad_front_bytes sender 32 ++ pad_front_bytes (int_to_bytes nonce) 32)).drop 12).length
      = 20 := by
  refine ⟨rfl, ?_⟩
  rw [List.length_drop, h32]

/-- C5 witness: constant keccak collaborator, identity checksum formatter,
a 20-byte sender and nonce 5. -/
theorem compute_l2_create_address_spec_witness :
    compute_l2_create_address (fun _ => List.replicate 32 9) (fun s => s)
      (List.replicate 20 1) 5 =
      "0x" ++ bytesToHex ((List.replicate 32 9).drop 12) ∧
    ((List.replicate (32 : ℕ) (9 : ℕ)).drop 12).length = 20 := by
  exact compute_l2_create_address_spec (fun _ => List.replicate 32 9) (fun s => s)
    (List.replicate 20 1) 5 (fun x => by simp)

lemma encode_create_eq_ok {α : Type} (sha : Bytes → Bytes)
    (enc : String → Bytes × Bytes × Nat × Bytes → α) (b : Bytes)
    (cd salt : Option Bytes) (bch : Bytes)
    (hs : (salt.getD DEFAULT_SALT).length = 32)
    (hb : hash_byte_code sha b = Except.ok bch) :
    encode_create sha enc b cd salt =
      Except.ok (enc CREATE_FUNC (salt.getD DEFAULT_SALT, bch, 0, cd.getD EMPTY_BYTES)) := by
  simp only [encode_create]
  rw [if_neg (by simp [hs]), hb]

lemma encode_create2_eq_ok {α : Type} (sha : Bytes → Bytes)
    (enc : String → Bytes × Bytes × Nat × Bytes → α) (b : Bytes)
    (cd salt : Option Bytes) (bch : Bytes)
    (hs : (salt.getD DEFAULT_SALT).length = 32)
    (hb : hash_byte_code sha b = Except.ok bch) :
    encode_create2 sha enc b cd salt =
      Except.ok (enc CREATE2_FUNC (salt.getD DEFAULT_SALT, bch, 0, cd.getD EMPTY_BYTES)) := by
  simp only [encode_create2]
  rw [if_neg (by simp [hs]), hb]

/-- C6: `compute_l2_create2_address`, `encode_create` and `encode_create2`
each fail with the salt-length `OverflowError` (the spec's
`InvalidSaltLength`) on every explicitly supplied salt whose length is not
32 bytes, producing no result. -/
theorem salt_length_checked {α : Type} (keccak : Bytes → Bytes) (chk : String → String)
    (sha : Bytes → Bytes) (enc : String → Bytes × Bytes × Nat × Bytes → α)
    (sender b ctor : Bytes) (cd : Option Bytes) (salt : Bytes) (h : salt.length ≠ 32) :
    compute_l2_create2_address keccak chk sha sender b ctor salt =
      Except.error (PyError.overflowError "Salt data must be 32 length") ∧
    encode_create sha enc b cd (some salt) =
      Except.error (PyError.overflowError "Salt data must be 32 length") ∧
    encode_create2 sha enc b cd (some salt) =
      Except.error (PyError.overflowError "Salt data must be 32 length") := by
  refine ⟨?_, ?_, ?_⟩
  · simp only [compute_l2_create2_address]
    rw [if_pos h]
  · simp only [encode_create, Option.getD_some]
    rw [if_pos h]
  · simp only [encode_create2, Option.getD_some]
    rw [if_pos h]

/-- C6 witness: a 31-byte salt and a 33-byte salt each make all three
operations fail with the salt-length error. -/
theorem salt_length_checked_witness :
    (compute_l2_create2_address (fun _ => []) (fun s => s) (fun _ => []) [] [] []
        (List.replicate 31 0) =
      Except.error (PyError.overflowError "Salt data must be 32 length") ∧
    encode_create (fun _ => []) (fun _ _ => (0 : ℕ)) [] none (some (List.replicate 31 0)) =
      Except.error (PyError.overflowError "Salt data must be 32 length") ∧
    encode_create2 (fun _ => []) (fun _ _ => (0 : ℕ)) [] none (some (List.replicate 31 0)) =
      Except.error (PyError.overflowError "Salt data must be 32 length")) ∧
    (compute_l2_create2_address (fun _ => []) (fun s => s) (fun _ => []) [] [] []
        (List.replicate 33 0) =
      Except.error (PyError.overflowError "Salt data must be 32 length") ∧
    encode_create (fun _ => []) (fun _ _ => (0 : ℕ)) [] none (some (List.replicate 33 0)) =
      Except.error (PyError.overflowError "Salt data must be 32 length") ∧
    encode_create2 (fun _ => []) (fun _ _ => (0 : ℕ)) [] none (some (List.replicate 33 0)) =
      Except.error (PyError.overflowError "Salt data must be 32 length")) := by
  constructor
  · exact salt_length_checked (fun _ => []) (fun s => s) (fun _ => []) (fun _ _ => (0 : ℕ))
      [] [] [] none (List.replicate 31 0) (by decide)
  · exact salt_length_checked (fun _ => []) (fun s => s) (fun _ => []) (fun _ _ => (0 : ℕ))
      [] [] [] none (List.replicate 33 0) (by decide)

/-- C7: `encode_create` and `encode_create2` pass the external ABI encoder
exactly the ordered argument tuple `(salt, hash_bytecode(bytecode), 0,
call_data)` under the function names "create" and "create2" respectively,
where an unspecified salt defaults to the all-zero 32-byte value and
unspecified call data to the empty byte sequence. -/
theorem encode_args_order {α : Type} (sha : Bytes → Bytes)
    (enc : String → Bytes × Bytes × Nat × Bytes → α) (b : Bytes)
    (cd salt : Option Bytes) (bch : Bytes)
    (hs : (salt.getD DEFAULT_SALT).length = 32)
    (hb : hash_byte_code sha b = Except.ok bch) :
    encode_create sha enc b cd salt =
      Except.ok (enc CREATE_FUNC (salt.getD DEFAULT_SALT, bch, 0, cd.getD EMPTY_BYTES)) ∧
    encode_create2 sha enc b cd salt =
      Except.ok (enc CREATE2_FUNC (salt.getD DEFAULT_SALT, bch, 0, cd.getD EMPTY_BYTES)) ∧
    CREATE_FUNC = "create" ∧ CREATE2_FUNC = "create2" ∧
    DEFAULT_SALT = List.replicate 32 0 ∧ EMPTY_BYTES = ([] : Bytes) := by
  exact ⟨encode_create_eq_ok sha enc b cd salt bch hs hb,
    encode_create2_eq_ok sha enc b cd salt bch hs hb, rfl, rfl, by decide, rfl⟩

/-- C7 witness: with an encoder that records its arguments, both entry
points pass `(zero salt, bytecode hash, 0, empty call data)` under the
names "create" and "create2" when salt and call data are unspecified. -/
theorem encode_args_order_witness :
    encode_create (fun _ => List.replicate 32 5) (fun fn args => (fn, args))
        (List.replicate 33 7) none none =
      Except.ok ("create", (List.replicate 32 0, [0, 1] ++ List.replicate 30 5, 0, [])) ∧
    encode_create2 (fun _ => List.replicate 32 5) (fun fn args => (fn, args))
        (List.replicate 33 7) none none =
      Except.ok ("create2", (List.replicate 32 0, [0, 1] ++ List.replicate 30 5, 0, [])) := by
  have h := encode_args_order (fun _ => List.replicate 32 5) (fun fn args => (fn, args))
    (List.replicate 33 7) none none ([0, 1] ++ List.replicate 30 5) (by decide) (by decide)
  exact ⟨h.1, h.2.1⟩

/-- C8: under the spec-modelled ABI encoder, `encode_create2` with empty
call data produces calldata whose dynamic-bytes segment for the call data
is the 32-byte all-zero dynamic-length placeholder, not a zero-length
segment. -/
theorem encode_create2_empty_call_data (sel : String → Bytes) (sha : Bytes → Bytes)
    (b bch : Bytes) (hb : hash_byte_code sha b = Except.ok bch) :
    encode_create2 sha (abiEncodeDeployCall sel) b none none =
      Except.ok (sel CREATE2_FUNC ++ DEFAULT_SALT ++ bch ++ u256be 0 ++ u256be 128 ++
        abiDynamicBytesSegment EMPTY_BYTES) ∧
    abiDynamicBytesSegment EMPTY_BYTES = List.replicate 32 0 ∧
    abiDynamicBytesSegment EMPTY_BYTES ≠ ([] : Bytes) := by
  refine ⟨?_, by decide, by decide⟩
  exact encode_create2_eq_ok sha (abiEncodeDeployCall sel) b none none bch (by decide) hb

/-- C8 witness: a concrete selector and SHA-256 collaborator on the empty
bytecode; the encoding ends in the 32-byte all-zero placeholder segment. -/
theorem encode_create2_empty_call_data_witness :
    encode_create2 (fun _ => List.replicate 32 5)
        (abiEncodeDeployCall (fun _ => [222, 173, 190, 239])) [] none none =
      Except.ok ([222, 173, 190, 239] ++ List.replicate 32 0 ++
        ([0, 0] ++ List.replicate 30 5) ++ u256be 0 ++ u256be 128 ++
        abiDynamicBytesSegment []) ∧
    abiDynamicBytesSegment ([] : Bytes) = List.replicate 32 0 := by
  have h := encode_create2_empty_call_data (fun _ => [222, 173, 190, 239])
    (fun _ => List.replicate 32 5) [] ([0, 0] ++ List.replicate 30 5) (by decide)
  exact ⟨h.1, h.2.1⟩

/-- C9: `extract_contract_address` returns the `contractAddress` field of
the decoded entry at index 1; with fewer than two decoded entries it fails
with `IndexError` (the spec's `EventNotFound`), and with an index-1 entry
lacking the field it fails with `KeyError` (the spec's `MissingField`). -/
theorem extract_contract_address_spec (decoded : List (List (String × String))) :
    (∀ args addr, decoded.get? 1 = some args →
       args.lookup "contractAddress" = some addr →
       extract_contract_address decoded = Except.ok addr) ∧
    (decoded.length < 2 → extract_contract_address decoded = Except.error PyError.indexError) ∧
    (∀ args, decoded.get? 1 = some args → args.lookup "contractAddress" = none →
       extract_contract_address decoded = Except.error PyError.keyError) := by
  refine ⟨?_, ?_, ?_⟩
  · intro args addr h1 h2
    simp only [extract_contract_address, h1, h2]
  · intro hlen
    have h1 : decoded.get? 1 = none := List.get?_eq_none.mpr (by omega)
    simp only [extract_contract_address, h1]
  · intro args h1 h2
    simp only [extract_contract_address, h1, h2]

/-- C9 witness: a receipt with two decoded entries yields the second
entry's address, one with a single entry fails with `IndexError`, and one
whose second entry lacks the field fails with `KeyError`. -/
theorem extract_contract_address_spec_witness :
    extract_contract_address
        [[("contractAddress", "0xaaaa")], [("contractAddress", "0xbbbb")]] =
      Except.ok "0xbbbb" ∧
    extract_contract_address [[("contractAddress", "0xcccc")]] =
      Except.error PyError.indexError ∧
    extract_contract_address [[("contractAddress", "0xdddd")], [("other", "1")]] =
      Except.error PyError.keyError := by
  refine ⟨?_, ?_, ?_⟩
  · exact (extract_contract_address_spec _).1 [("contractAddress", "0xbbbb")] "0xbbbb"
      (by decide) (by decide)
  · exact (extract_contract_address_spec _).2.1 (by decide)
  · exact (extract_contract_address_spec _).2.2 [("other", "1")] (by decide) (by decide)

/-- C10: no operation requires the bytecode length to be a multiple of 32:
on any bytecode of within-limit word count whose length is not a multiple
of 32, `_hash_byte_code` succeeds — the two-byte prefix counting only the
complete 32-byte words while the full byte string is hashed — and
`compute_l2_create2_address`, `encode_create` and `encode_create2` succeed
on it as well. -/
theorem no_word_alignment_requirement {α : Type} (keccak : Bytes → Bytes)
    (chk : String → String) (sha : Bytes → Bytes)
    (enc : String → Bytes × Bytes × Nat × Bytes → α)
    (sender ctor b salt : Bytes)
    (hwc : b.length / 32 ≤ 65535) (hrem : b.length % 32 ≠ 0) (hs : salt.length = 32) :
    hash_byte_code sha b =
      Except.ok ([b.length / 32 / 256, b.length / 32 % 256] ++ (sha b).drop 2) ∧
    (∃ s, compute_l2_create2_address keccak chk sha sender b ctor salt = Except.ok s) ∧
    (∃ r, encode_create sha enc b none none = Except.ok r) ∧
    (∃ r, encode_create2 sha enc b none none = Except.ok r) := by
  have hh := hash_byte_code_of_le sha b hwc
  exact ⟨hh,
    ⟨_, compute_l2_create2_address_eq_ok keccak chk sha sender b ctor salt _ hs hh⟩,
    ⟨_, encode_create_eq_ok sha enc b none none _ (by decide) hh⟩,
    ⟨_, encode_create2_eq_ok sha enc b none none _ (by decide) hh⟩⟩

/-- C10 witness: the 33-byte all-7 bytecode (one complete word plus one
trailing byte) is accepted by all four operations. -/
theorem no_word_alignment_requirement_witness :
    hash_byte_code (fun _ => List.replicate 32 5) (List.replicate 33 7) =
      Except.ok ([0, 1] ++ List.replicate 30 5) ∧
    (∃ s, compute_l2_create2_address (fun _ => List.replicate 32 2) (fun s => s)
      (fun _ => List.replicate 32 5) [] (List.replicate 33 7) [] (List.replicate 32 0) =
      Except.ok s) ∧
    (∃ r, encode_create (fun _ => List.replicate 32 5) (fun _ _ => (0 : ℕ))
      (List.replicate 33 7) none none = Except.ok r) ∧
    (∃ r, encode_create2 (fun _ => List.replicate 32 5) (fun _ _ => (0 : ℕ))
      (List.replicate 33 7) none none = Except.ok r) := by
  have h := no_word_alignment_requirement (fun _ => List.replicate 32 2) (fun s => s)
    (fun _ => List.replicate 32 5) (fun _ _ => (0 : ℕ)) [] [] (List.replicate 33 7)
    (List.replicate 32 0) (by decide) (by decide) (by decide)
  simpa using h

end ContractDeployer
